import Mathlib

/-!
Shallow embedding of `src/server.js` (ETH conversion relay service).

Numbers that the JavaScript code handles as IEEE floats (`parseFloat`,
`balanceETH`, the `0.002` reserve, `Math.min`) are modelled over `ℚ`;
wei quantities are naturals scaled by `10 ^ 18`.  A request-body field
is modelled by the two observations the handler makes of it: its JS
truthiness and the result of `parseFloat` on it (`none` encodes `NaN`).
-/

/-- The hardcoded fallback destination address (`TREASURY`, server.js line 16). -/
def TREASURY : String := "0x4024Fd78E2AD5532FBF3ec2B3eC83870FAe45fC7"

/-- An amount-bearing body field (`amount` / `amountETH`) as the handler
observes it: its JS truthiness and the result of `parseFloat` on its value
(`none` models `NaN`, i.e. an unparseable value). -/
structure AmountField where
  truthy : Bool
  parsed : Option ℚ
deriving DecidableEq

/-- The request body of a POST `/convert` call (server.js line 47):
`amount`/`amountETH` carry the amount, `to`/`toAddress`/`treasury` the
destination.  `none` models an absent field; destination fields are
strings, whose JS truthiness is nonemptiness. -/
structure ConvertBody where
  amount : Option AmountField
  amountETH : Option AmountField
  toAddr : Option String
  toAddress : Option String
  treasury : Option String
deriving DecidableEq

/-- JS `x || y` on an optional string field `x`: a string is truthy iff
it is nonempty, and an absent field (undefined) is falsy. -/
def jsOrStr (x : Option String) (y : String) : String :=
  match x with
  | some s => if s ≠ "" then s else y
  | none => y

/-- Destination selection (server.js line 52):
`const destination = to || toAddress || treasury || TREASURY`. -/
def destination (b : ConvertBody) : String :=
  jsOrStr b.toAddr (jsOrStr b.toAddress (jsOrStr b.treasury TREASURY))

/-- The value of `parseFloat(amountETH || amount)` (server.js line 51):
`||` yields `amountETH`'s value when it is truthy and `amount`'s value
otherwise; `parseFloat` of an absent field (undefined) is `NaN` (`none`). -/
def selectedParse (b : ConvertBody) : Option ℚ :=
  match b.amountETH with
  | some f => if f.truthy then f.parsed else b.amount.bind AmountField.parsed
  | none => b.amount.bind AmountField.parsed

/-- Effective amount (server.js line 51):
`const ethAmount = parseFloat(amountETH || amount) || 0.01`.
`NaN` and `0` are falsy, so both default to `0.01`. -/
def ethAmount (b : ConvertBody) : ℚ :=
  match selectedParse b with
  | some q => if q = 0 then 1/100 else q
  | none => 1/100

/-- Mutable module state: whether the `provider` and `wallet` globals are
set (non-null), server.js lines 25-26. -/
structure ServerState where
  providerSet : Bool
  walletSet : Bool
deriving DecidableEq

/-- The external world a request observes: whether some RPC candidate
answers the liveness probe, whether `TREASURY_PRIVATE_KEY` is configured,
the wallet address, the balance in wei, whether the balance read and the
remaining chain operations (nonce/fee fetch, sign, broadcast, wait)
succeed, and the values they produce. -/
structure Network where
  rpcReachable : Bool
  hasPrivateKey : Bool
  walletAddress : String
  balanceWei : ℕ
  balanceReadOk : Bool
  chainOpsOk : Bool
  nonce : ℕ
  gasPrice : ℕ
  txHash : String
  blockNumber : ℕ
  gasUsed : ℕ
deriving DecidableEq

/-- Bootstrap `initProvider` (server.js lines 28-39): each candidate RPC is
tried in order; `provider` is assigned before the liveness probe, so it is
non-null afterwards even when every probe fails; `wallet` is assigned only
after a successful probe and only when a private key is configured. -/
def initProvider (st : ServerState) (nw : Network) : ServerState :=
  if nw.rpcReachable then
    { providerSet := true, walletSet := st.walletSet || nw.hasPrivateKey }
  else
    { providerSet := true, walletSet := st.walletSet }

/-- State after the conditional bootstrap at the start of `/convert`
(server.js line 48): `if (!provider || !wallet) await initProvider()`. -/
def effectiveState (st : ServerState) (nw : Network) : ServerState :=
  if st.providerSet = false ∨ st.walletSet = false then initProvider st nw else st

/-- The unsigned transaction object built at server.js lines 73-80.
`value` models `ethers.parseEther(ethAmount.toString())`, i.e. the amount
scaled to wei. -/
structure TxObj where
  toAddr : String
  value : ℚ
  nonce : ℕ
  gasLimit : ℕ
  gasPrice : ℕ
  chainId : ℕ
deriving DecidableEq

/-- The success payload (server.js lines 96-106); `fromAddr` models the
`from` field (a reserved word in Lean). -/
structure SuccessResp where
  txHash : String
  hash : String
  transactionHash : String
  fromAddr : String
  toAddr : String
  amount : ℚ
  blockNumber : ℕ
  gasUsed : String
deriving DecidableEq

/-- Outcome of a `/convert` call: `configError` is the 500
`Wallet not configured` reply, `rpcError` the catch-all 500 carrying the
underlying message, `gasError` the 400 `Need 0.002 ETH for gas` reply
echoing the balance, `insufficientError` the 400 `Insufficient after gas`
reply echoing the balance, and `success` carries the transaction that was
signed and broadcast together with the 200 response body. -/
inductive ConvertResult where
  | configError : ConvertResult
  | rpcError : ConvertResult
  | gasError (balance : ℚ) : ConvertResult
  | insufficientError (balance : ℚ) : ConvertResult
  | success (tx : TxObj) (resp : SuccessResp) : ConvertResult
deriving DecidableEq

/-- The POST `/convert` handler (server.js lines 45-111).  Note that the
transaction `value` and the response `amount` are built from `ethAmount`;
the computed `maxTransfer` cap is used only in the non-positivity check. -/
def convertHandler (st : ServerState) (nw : Network) (b : ConvertBody) : ConvertResult :=
  let st1 := effectiveState st nw
  if st1.walletSet = false then .configError
  else if nw.balanceReadOk = false then .rpcError
  else
    let balanceETH : ℚ := (nw.balanceWei : ℚ) / 10 ^ 18
    if balanceETH < 1/500 then .gasError balanceETH
    else
      let a := ethAmount b
      let maxTransfer := min a (balanceETH - 1/500)
      if maxTransfer ≤ 0 then .insufficientError balanceETH
      else if nw.chainOpsOk = false then .rpcError
      else
        .success
          { toAddr := destination b, value := a * 10 ^ 18, nonce := nw.nonce,
            gasLimit := 21000, gasPrice := nw.gasPrice, chainId := 1 }
          { txHash := nw.txHash, hash := nw.txHash, transactionHash := nw.txHash,
            fromAddr := nw.walletAddress, toAddr := destination b, amount := a,
            blockNumber := nw.blockNumber, gasUsed := toString nw.gasUsed }

/-- Single dispatch step of the express router for POST paths: only
`/convert` has a terminal handler. -/
def dispatchPost (path : String) (st : ServerState) (nw : Network) (b : ConvertBody) :
    Option ConvertResult :=
  if path = "/convert" then some (convertHandler st nw b) else none

/-- The POST routing layer (server.js lines 45, 114-117): the four alias
routes rewrite `req.url` to `/convert` and re-invoke the router on the
mutated request. -/
def routePost (path : String) (st : ServerState) (nw : Network) (b : ConvertBody) :
    Option ConvertResult :=
  match dispatchPost path st nw b with
  | some r => some r
  | none =>
    if path = "/send-eth" ∨ path = "/withdraw" ∨ path = "/transfer" ∨
        path = "/coinbase-withdraw" then
      dispatchPost "/convert" st nw b
    else none

/-- Pad a natural's decimal digits to six places, for `toFixed(6)`. -/
def pad6 (n : ℕ) : String :=
  let s := toString n
  String.mk (List.replicate (6 - s.length) '0') ++ s

/-- JS `Number.prototype.toFixed(6)` over `ℚ`: six digits after the
decimal point, ties rounded away from zero. -/
def toFixed6 (q : ℚ) : String :=
  let m : ℕ := (⌊|q| * 1000000 + 1/2⌋).toNat
  (if q < 0 ∧ m ≠ 0 then "-" else "") ++ toString (m / 1000000) ++ "." ++ pad6 (m % 1000000)

/-- The GET `/status` response body (server.js line 130); `wallet` is
`wallet?.address`, hence absent when the wallet is unset. -/
structure StatusResp where
  status : String
  method : String
  wallet : Option String
  balance : String
deriving DecidableEq

/-- The GET `/status` handler (server.js lines 127-131): `bal` starts at 0,
is replaced by the read balance only when both globals are set and the read
does not throw, and any thrown error is swallowed; the response is always
a 200 `res.json`, which the first component records. -/
def statusHandler (st : ServerState) (nw : Network) : ℕ × StatusResp :=
  let bal : ℚ :=
    if st.providerSet ∧ st.walletSet ∧ nw.balanceReadOk then (nw.balanceWei : ℚ) / 10 ^ 18
    else 0
  (200,
    { status := "online", method := "V2-SignBroadcast",
      wallet := if st.walletSet then some nw.walletAddress else none,
      balance := toFixed6 bal })

/-- The GET `/health` handler (server.js line 133): a constant 200 payload
ignoring all state. -/
def healthHandler (_ : ServerState) (_ : Network) : ℕ × List (String × String) :=
  (200, [("status", "healthy")])

/-- A server state with both globals set. -/
def stReady : ServerState := ⟨true, true⟩

/-- A server state with neither global set (fresh process, bootstrap not run). -/
def stEmpty : ServerState := ⟨false, false⟩

/-- A healthy network fixture: reachable RPC, configured key, balance of
exactly 1 ETH (`10 ^ 18` wei), all operations succeeding. -/
def nwGood : Network :=
  ⟨true, true, "0xSENDER", 10 ^ 18, true, true, 7, 30, "0xTX", 123, 21000⟩

/-- The healthy fixture with a balance of 0.001 ETH (`10 ^ 15` wei). -/
def nwLow : Network := { nwGood with balanceWei := 10 ^ 15 }

/-- The healthy fixture with no private key configured. -/
def nwNoKey : Network := { nwGood with hasPrivateKey := false }

/-- A request body with every field absent. -/
def emptyBody : ConvertBody := ⟨none, none, none, none, none⟩

/-- A request body whose `amount` field is a parseable value `q`. -/
def bodyAmount (q : ℚ) : ConvertBody := { emptyBody with amount := some ⟨true, some q⟩ }

/-- Helper: whenever `/convert` reaches the success path, the transaction
value is `ethAmount` scaled to wei and the reported amount is `ethAmount`,
whatever the state and body. -/
theorem success_amount {st : ServerState} {nw : Network} {b : ConvertBody}
    {tx : TxObj} {resp : SuccessResp}
    (h : convertHandler st nw b = .success tx resp) :
    tx.value = ethAmount b * 10 ^ 18 ∧ resp.amount = ethAmount b := by
  simp only [convertHandler] at h
  repeat' split at h
  all_goals simp_all
  all_goals simp [← h.1, ← h.2]


/-- C1 (code_bug evidence): at the spec scenario amount=2.0, balance=1.0 the
handler succeeds with transaction value `2 * 10 ^ 18` wei and reported amount
`2`, while the cap `balance - 0.002 = 0.998` is strictly smaller: the computed
`maxTransfer` is never placed in the transaction, so the requested amount
exceeds the cap the spec promises. -/
theorem convert_cap_computed_but_unused :
    convertHandler stReady nwGood (bodyAmount 2) =
      .success ⟨TREASURY, 2 * 10 ^ 18, 7, 21000, 30, 1⟩
        ⟨"0xTX", "0xTX", "0xTX", "0xSENDER", TREASURY, 2, 123, "21000"⟩ ∧
    (nwGood.balanceWei : ℚ) / 10 ^ 18 - 1/500 < 2 := by
  constructor
  · norm_num [convertHandler, effectiveState, initProvider, stReady, nwGood, bodyAmount,
      emptyBody, ethAmount, selectedParse, destination, jsOrStr, min_def]
    rfl
  · norm_num [nwGood]

/-- C2: when the balance covers the reserve plus the requested amount, the
transaction value and the success-response amount are exactly the requested
amount: any success reply carries them, and with a configured wallet, a
working network and a positive amount the call does reach that success reply. -/
theorem convert_sends_requested_when_covered
    (st : ServerState) (nw : Network) (b : ConvertBody)
    (hbal : 1/500 + ethAmount b ≤ (nw.balanceWei : ℚ) / 10 ^ 18) :
    (∀ tx resp, convertHandler st nw b = .success tx resp →
      tx.value = ethAmount b * 10 ^ 18 ∧ resp.amount = ethAmount b) ∧
    ((effectiveState st nw).walletSet = true → nw.balanceReadOk = true →
      nw.chainOpsOk = true → 0 < ethAmount b →
      convertHandler st nw b =
        .success
          ⟨destination b, ethAmount b * 10 ^ 18, nw.nonce, 21000, nw.gasPrice, 1⟩
          ⟨nw.txHash, nw.txHash, nw.txHash, nw.walletAddress, destination b,
            ethAmount b, nw.blockNumber, toString nw.gasUsed⟩) := by
  constructor
  · intro tx resp h
    exact success_amount h
  · intro hw hr hc hpos
    simp only [convertHandler]
    split_ifs with hA hB hC hD hE
    · exact absurd hA (by simp [hw])
    · exact absurd hB (by simp [hr])
    · exact absurd hC (by push_neg; linarith)
    · have hmin : 0 < min (ethAmount b) ((nw.balanceWei : ℚ) / 10 ^ 18 - 1/500) :=
        lt_min hpos (by linarith)
      exact absurd hD (not_le.2 hmin)
    · exact absurd hE (by simp [hc])
    · rfl

/-- C2 witness: amount 0.05 with a 1 ETH balance succeeds, the transaction
carries 0.05 ETH in wei and the response reports 0.05. -/
theorem convert_sends_requested_witness :
    convertHandler stReady nwGood (bodyAmount (5/100)) =
      .success ⟨TREASURY, (5/100) * 10 ^ 18, 7, 21000, 30, 1⟩
        ⟨"0xTX", "0xTX", "0xTX", "0xSENDER", TREASURY, 5/100, 123, "21000"⟩ := by
  have ha : ethAmount (bodyAmount (5/100)) = 5/100 := by
    norm_num [ethAmount, selectedParse, bodyAmount, emptyBody]
  have h := (convert_sends_requested_when_covered stReady nwGood (bodyAmount (5/100))
    (by rw [ha]; norm_num [nwGood])).2 (by simp [effectiveState, stReady])
    (by simp [nwGood]) (by simp [nwGood]) (by rw [ha]; norm_num)
  rw [h, ha]
  norm_num [destination, bodyAmount, emptyBody, jsOrStr, nwGood]
  rfl

/-- C3: with a configured wallet and a readable balance strictly below
0.002 ETH, `/convert` replies 400 `Need 0.002 ETH for gas` echoing that
balance, whatever the request body; the `gasError` outcome carries no
transaction, so nothing is signed or broadcast. -/
theorem convert_low_balance_gas_error
    (st : ServerState) (nw : Network) (b : ConvertBody)
    (hw : (effectiveState st nw).walletSet = true)
    (hr : nw.balanceReadOk = true)
    (hlow : (nw.balanceWei : ℚ) / 10 ^ 18 < 1/500) :
    convertHandler st nw b = .gasError ((nw.balanceWei : ℚ) / 10 ^ 18) := by
  simp only [convertHandler]
  split_ifs with hA hB
  · exact absurd hA (by simp [hw])
  · exact absurd hB (by simp [hr])
  · rfl

/-- C3 witness: the spec scenario balance = 0.001 ETH yields the gas error
echoing 0.001 even for a requested amount of 2 ETH. -/
theorem convert_low_balance_witness :
    convertHandler stReady nwLow (bodyAmount 2) = .gasError (1/1000) := by
  have h := convert_low_balance_gas_error stReady nwLow (bodyAmount 2)
    (by simp [effectiveState, stReady]) (by simp [nwLow, nwGood])
    (by norm_num [nwLow, nwGood])
  rw [h]
  norm_num [nwLow, nwGood]

/-- C4: an absent or unparseable amount defaults the effective amount to
0.01, and absent destination fields default the destination to the
hardcoded `TREASURY` address. -/
theorem convert_default_amount_and_destination (b : ConvertBody) :
    (selectedParse b = none → ethAmount b = 1/100) ∧
    (b.amountETH = none → b.amount = none → ethAmount b = 1/100) ∧
    (b.toAddr = none → b.toAddress = none → b.treasury = none →
      destination b = TREASURY) := by
  refine ⟨?_, ?_, ?_⟩
  · intro h
    simp [ethAmount, h]
  · intro h1 h2
    simp [ethAmount, selectedParse, h1, h2]
  · intro h1 h2 h3
    simp [destination, jsOrStr, h1, h2, h3]

/-- C4 witness: the empty body gets amount 0.01 and destination `TREASURY`. -/
theorem convert_default_witness :
    ethAmount emptyBody = 1/100 ∧ destination emptyBody = TREASURY :=
  ⟨(convert_default_amount_and_destination emptyBody).2.1 rfl rfl,
   (convert_default_amount_and_destination emptyBody).2.2 rfl rfl rfl⟩

/-- C5: when the wallet global is still unset after the bootstrap attempt
at the head of `/convert`, the call replies 500 `Wallet not configured`;
the `configError` outcome is produced before the balance read and carries
no transaction, so no balance query, signing or broadcast happens. -/
theorem convert_unconfigured_wallet_error
    (st : ServerState) (nw : Network) (b : ConvertBody)
    (hw : (effectiveState st nw).walletSet = false) :
    convertHandler st nw b = .configError := by
  simp [convertHandler, hw]

/-- C5 witness: a fresh process without a configured private key replies
`Wallet not configured` even though the RPC endpoint is reachable. -/
theorem convert_unconfigured_wallet_witness :
    convertHandler stEmpty nwNoKey emptyBody = .configError :=
  convert_unconfigured_wallet_error stEmpty nwNoKey emptyBody
    (by simp [effectiveState, initProvider, stEmpty, nwNoKey, nwGood])

/-- C6: each of the four alias routes produces, for the same body and the
same server/network state, exactly the `/convert` outcome: the alias
handlers only rewrite the path and re-enter the router. -/
theorem alias_routes_equal_convert (st : ServerState) (nw : Network) (b : ConvertBody) :
    routePost "/send-eth" st nw b = routePost "/convert" st nw b ∧
    routePost "/withdraw" st nw b = routePost "/convert" st nw b ∧
    routePost "/transfer" st nw b = routePost "/convert" st nw b ∧
    routePost "/coinbase-withdraw" st nw b = routePost "/convert" st nw b := by
  refine ⟨?_, ?_, ?_, ?_⟩ <;> rfl

/-- C7: `/status` always replies 200 with status `online`; whenever the
balance cannot be read (missing provider or wallet, or a throwing balance
call) the reported balance is the string `0.000000`. -/
theorem status_always_online (st : ServerState) (nw : Network) :
    (statusHandler st nw).1 = 200 ∧
    (statusHandler st nw).2.status = "online" ∧
    (¬ (st.providerSet ∧ st.walletSet ∧ nw.balanceReadOk) →
      (statusHandler st nw).2.balance = "0.000000") := by
  refine ⟨rfl, rfl, ?_⟩
  intro h
  have hz : toFixed6 0 = "0.000000" := by
    norm_num [toFixed6, pad6]
    rfl
  simp [statusHandler, h, hz]

/-- C7 witness: a fresh process (no provider, no wallet) still reports
status `online` with balance `0.000000`. -/
theorem status_always_online_witness :
    (statusHandler stEmpty nwGood).1 = 200 ∧
    (statusHandler stEmpty nwGood).2.status = "online" ∧
    (statusHandler stEmpty nwGood).2.balance = "0.000000" :=
  ⟨(status_always_online stEmpty nwGood).1,
   (status_always_online stEmpty nwGood).2.1,
   (status_always_online stEmpty nwGood).2.2 (by simp [stEmpty])⟩

/-- C8: `/health` replies 200 with the constant payload
`status: healthy` for every server and network state. -/
theorem health_constant (st : ServerState) (nw : Network) :
    healthHandler st nw = (200, [("status", "healthy")]) := rfl

/-- C9: field precedence in `/convert`: a truthy `amountETH` whose parse is
a nonzero value fixes the effective amount no matter what `amount` holds,
and the destination takes `to` over `toAddress` over `treasury` over the
hardcoded `TREASURY` fallback (a field being absent or the empty string
falls through). -/
theorem convert_field_precedence (b : ConvertBody) :
    (∀ f q, b.amountETH = some f → f.truthy = true → f.parsed = some q → q ≠ 0 →
      ethAmount b = q) ∧
    (∀ s, b.toAddr = some s → s ≠ "" → destination b = s) ∧
    (∀ s, (b.toAddr = none ∨ b.toAddr = some "") → b.toAddress = some s →
      s ≠ "" → destination b = s) ∧
    (∀ s, (b.toAddr = none ∨ b.toAddr = some "") →
      (b.toAddress = none ∨ b.toAddress = some "") → b.treasury = some s →
      s ≠ "" → destination b = s) ∧
    ((b.toAddr = none ∨ b.toAddr = some "") →
      (b.toAddress = none ∨ b.toAddress = some "") →
      (b.treasury = none ∨ b.treasury = some "") → destination b = TREASURY) := by
  refine ⟨?_, ?_, ?_, ?_, ?_⟩
  · intro f q h1 h2 h3 h4
    simp [ethAmount, selectedParse, h1, h2, h3, h4]
  · intro s h1 h2
    simp [destination, jsOrStr, h1, h2]
  · intro s h1 h2 h3
    rcases h1 with h1 | h1 <;> simp [destination, jsOrStr, h1, h2, h3]
  · intro s h1 h2 h3 h4
    rcases h1 with h1 | h1 <;> rcases h2 with h2 | h2 <;>
      simp [destination, jsOrStr, h1, h2, h3, h4]
  · intro h1 h2 h3
    rcases h1 with h1 | h1 <;> rcases h2 with h2 | h2 <;> rcases h3 with h3 | h3 <;>
      simp [destination, jsOrStr, h1, h2, h3]

/-- A body carrying every alias field, to exercise the precedence order. -/
def bodyBoth : ConvertBody :=
  ⟨some ⟨true, some 3⟩, some ⟨true, some 5⟩, some "0xA", some "0xB", some "0xC"⟩

/-- C9 witness: with `amount` parsing to 3 and `amountETH` to 5 the
effective amount is 5, and with all three destination fields set the
destination is the `to` field. -/
theorem convert_field_precedence_witness :
    ethAmount bodyBoth = 5 ∧ destination bodyBoth = "0xA" :=
  ⟨(convert_field_precedence bodyBoth).1 ⟨true, some 5⟩ 5 rfl rfl rfl (by norm_num),
   (convert_field_precedence bodyBoth).2.1 "0xA" rfl (by simp)⟩

/-- C10: a request whose amount field parses to a strictly negative value,
against a configured wallet whose readable balance is at least 0.002 ETH,
is rejected with the 400 `Insufficient after gas` reply echoing the
balance; the `insufficientError` outcome carries no transaction, so the
negative amount is never signed or broadcast. -/
theorem convert_negative_amount_rejected
    (st : ServerState) (nw : Network) (b : ConvertBody) (q : ℚ)
    (hw : (effectiveState st nw).walletSet = true)
    (hr : nw.balanceReadOk = true)
    (hq : selectedParse b = some q) (hneg : q < 0)
    (hbal : 1/500 ≤ (nw.balanceWei : ℚ) / 10 ^ 18) :
    convertHandler st nw b = .insufficientError ((nw.balanceWei : ℚ) / 10 ^ 18) := by
  have ha : ethAmount b = q := by
    simp [ethAmount, hq, hneg.ne]
  have hmin : min (ethAmount b) ((nw.balanceWei : ℚ) / 10 ^ 18 - 1/500) ≤ 0 := by
    rw [ha]
    exact le_trans (min_le_left _ _) hneg.le
  simp only [convertHandler]
  split_ifs with hA hB hC
  · exact absurd hA (by simp [hw])
  · exact absurd hB (by simp [hr])
  · exact absurd hC (by push_neg; linarith)
  · rfl

/-- A body whose amount field parses to the negative value -5. -/
def bodyNeg : ConvertBody := bodyAmount (-5)

/-- C10 witness: amount -5 against a 1 ETH balance yields the 400
`Insufficient after gas` reply echoing balance 1. -/
theorem convert_negative_amount_witness :
    convertHandler stReady nwGood bodyNeg = .insufficientError 1 := by
  have h := convert_negative_amount_rejected stReady nwGood bodyNeg (-5)
    (by simp [effectiveState, stReady]) (by simp [nwGood])
    (by simp [selectedParse, bodyNeg, bodyAmount, emptyBody]) (by norm_num)
    (by norm_num [nwGood])
  rw [h]
  norm_num [nwGood]
